import Mathlib

/-!
Verification development for a smart-home registry
(devices, a single hub, dwellings), shallowly embedded from the
Python sources `src/models.py` and `src/device_manager.py`.

Modelling conventions:
* device / hub / dwelling identifiers (uuid4 strings in the source) are
  opaque tokens, modelled as `Nat`; the registry carries a `nextId`
  counter that determinizes uuid generation;
* Python dicts (which preserve insertion order and keep a key's
  position on overwrite) are association lists with `alookup`,
  `insertKV` (replace in place or append) and `eraseKey`;
* Python floats are modelled as `ℚ` (every temperature or brightness
  literal the program ever compares or stores is an exact decimal, and
  the program performs no float arithmetic, only comparisons and
  assignments);
* `created_at` timestamps are not modelled (no operation reads them);
* keyword-argument bundles are `List (String × PyVal)`; Python's call
  binding (TypeError on an unknown keyword) and the attribute/type
  errors raised when a method like `.lower()` or a numeric comparison
  meets a value of the wrong runtime type are modelled with
  `Except PyErr`, the partially mutated object state being threaded
  alongside the error exactly as the in-place mutation survives an
  exception in Python.
-/

namespace Ambient

/-- A Python runtime value as it can appear in a keyword-argument
bundle: string, int, bool or float (floats as exact rationals). -/
inductive PyVal where
  | str (s : String)
  | int (n : Int)
  | bool (b : Bool)
  | float (q : ℚ)
  deriving DecidableEq

/-- The Python exceptions the embedded code can raise: `TypeError`
(unknown keyword at call binding, or a numeric comparison against a
string) and `AttributeError` (`.lower()` on a non-string). -/
inductive PyErr where
  | typeError
  | attributeError
  deriving DecidableEq

/-- A keyword-argument bundle (`**kwargs`). -/
abbrev Kw : Type := List (String × PyVal)

/-- Whether a Python value is a string. -/
def PyVal.isStr : PyVal → Bool
  | PyVal.str _ => true
  | _ => false

/-- Whether a call completed without raising. -/
def ExceptOk {ε α : Type} : Except ε α → Bool
  | Except.ok _ => true
  | Except.error _ => false

/-- Python's `str.lower()` on the ASCII strings this program compares
(modelled character-wise so that it evaluates in the kernel). -/
def pyLower (s : String) : String := String.mk (s.data.map Char.toLower)

/-- Association-list lookup, first binding wins
(models Python `d[k]` / `k in d`). -/
def alookup {κ α : Type} [DecidableEq κ] : List (κ × α) → κ → Option α
  | [], _ => none
  | kv :: rest, k => if kv.1 = k then some kv.2 else alookup rest k

/-- Association-list insert-or-replace (models Python `d[k] = v`:
an existing key keeps its position, a new key is appended). -/
def insertKV {κ α : Type} [DecidableEq κ] : List (κ × α) → κ → α → List (κ × α)
  | [], k, v => [(k, v)]
  | kv :: rest, k, v => if kv.1 = k then (k, v) :: rest else kv :: insertKV rest k v

/-- Association-list key removal (models Python `del d[k]`). -/
def eraseKey {κ α : Type} [DecidableEq κ] : List (κ × α) → κ → List (κ × α)
  | [], _ => []
  | kv :: rest, k => if kv.1 = k then eraseKey rest k else kv :: eraseKey rest k

/-- Source `models.py DeviceState`: the enum of switch/lock positions. -/
inductive DeviceState where
  | on
  | off
  | locked
  | unlocked
  deriving DecidableEq

/-- Variant state of a `Switch` (`models.py` lines 55-70):
the single `_state` field, initially off. -/
structure SwitchState where
  state : DeviceState
  deriving DecidableEq

/-- Variant state of a `Dimmer` (`models.py` lines 73-101). -/
structure DimmerState where
  power : DeviceState
  brightness : ℚ
  deriving DecidableEq

/-- Variant state of a `Lock` (`models.py` lines 104-137).  `_pin` and
`_is_armed` are stored by plain assignment in `modify_state`, so any
Python value can end up in them; they are therefore `PyVal`. -/
structure LockState where
  state : DeviceState
  pin : PyVal
  is_armed : PyVal
  deriving DecidableEq

/-- Variant state of a `Thermostat` (`models.py` lines 140-172). -/
structure ThermostatState where
  current_temp : ℚ
  target_temp : ℚ
  mode : String
  is_running : Bool
  deriving DecidableEq

/-- Source `Switch.__init__`: state starts off. -/
def Switch.init : SwitchState := ⟨DeviceState.off⟩

/-- Source `Dimmer.__init__`: power off, brightness 0. -/
def Dimmer.init : DimmerState := ⟨DeviceState.off, 0⟩

/-- Source `Lock.__init__`: locked, the given pin (a string), armed. -/
def Lock.init (pin : String) : LockState :=
  ⟨DeviceState.locked, PyVal.str pin, PyVal.bool true⟩

/-- Source `Thermostat.__init__` (`models.py` lines 143-148): both
temperatures 72.0, mode "heat", not running. -/
def Thermostat.init : ThermostatState :=
  { current_temp := 72, target_temp := 72, mode := "heat", is_running := false }

/-- Source `Switch.modify_state` (`models.py` lines 65-70): a present power
value is applied iff it is case-insensitively "on"/"off", in which
case the call returns True; every other path returns False. -/
def Switch.modify_state (power : Option String) (s : SwitchState) :
    Bool × SwitchState :=
  match power with
  | some p =>
    if (pyLower p) = "on" then (true, ⟨DeviceState.on⟩)
    else if (pyLower p) = "off" then (true, ⟨DeviceState.off⟩)
    else (false, s)
  | none => (false, s)

/-- The `power` branch of `Dimmer.modify_state` (`models.py` lines
88-92): a valid value sets `_power`, and turning off zeroes
`_brightness`. -/
def Dimmer.powerBranch (power : Option String) (s : DimmerState) : DimmerState :=
  match power with
  | none => s
  | some p =>
    if (pyLower p) = "on" then { s with power := DeviceState.on }
    else if (pyLower p) = "off" then { power := DeviceState.off, brightness := 0 }
    else s

/-- The `brightness` branch and the return value of
`Dimmer.modify_state` (`models.py` lines 94-101): an in-range
brightness is stored (forcing power on when positive) and returns
True; otherwise control reaches
`return power is not None or brightness is not None`. -/
def Dimmer.brightnessStep (power : Option String) (brightness : Option ℚ)
    (s1 : DimmerState) : Bool × DimmerState :=
  match brightness with
  | some b =>
    if 0 ≤ b ∧ b ≤ 100 then
      let s2 := { s1 with brightness := b }
      (true, if 0 < b then { s2 with power := DeviceState.on } else s2)
    else (power.isSome || brightness.isSome, s1)
  | none => (power.isSome || brightness.isSome, s1)

/-- Source `Dimmer.modify_state` (`models.py` lines 87-101): the power branch
followed by the brightness branch and the final return expression. -/
def Dimmer.modify_state (power : Option String) (brightness : Option ℚ)
    (s : DimmerState) : Bool × DimmerState :=
  Dimmer.brightnessStep power brightness (Dimmer.powerBranch power s)

/-- Source `Lock.modify_state` (`models.py` lines 119-130): a valid state
string is applied, pin and is_armed are stored unconditionally when
present, and the call returns True iff any of the three was given. -/
def Lock.modify_state (state : Option String) (pin : Option PyVal)
    (is_armed : Option PyVal) (s : LockState) : Bool × LockState :=
  let s1 := match state with
    | none => s
    | some st =>
      if (pyLower st) = "locked" then { s with state := DeviceState.locked }
      else if (pyLower st) = "unlocked" then { s with state := DeviceState.unlocked }
      else s
  let s2 := match pin with
    | none => s1
    | some p => { s1 with pin := p }
  let s3 := match is_armed with
    | none => s2
    | some a => { s2 with is_armed := a }
  (state.isSome || pin.isSome || is_armed.isSome, s3)

/-- Source `Lock.unlock_with_pin` (`models.py` lines 132-137): unlocks and
returns True iff the candidate equals the stored pin, otherwise
touches nothing and returns False.  The candidate is the string the
caller supplies; the stored pin is whatever value `_pin` holds, and
Python equality between a string and a non-string is False, which the
`PyVal` equality reproduces. -/
def Lock.unlock_with_pin (candidate : String) (s : LockState) : Bool × LockState :=
  if PyVal.str candidate = s.pin then (true, { s with state := DeviceState.unlocked })
  else (false, s)

/-- The `target_temp` branch of `Thermostat.modify_state` (`models.py`
lines 159-161): an in-range target is stored, anything else ignored. -/
def Thermostat.targetBranch (target_temp : Option ℚ) (s : ThermostatState) :
    ThermostatState :=
  match target_temp with
  | none => s
  | some t => if 50 ≤ t ∧ t ≤ 90 then { s with target_temp := t } else s

/-- The `mode` branch of `Thermostat.modify_state` (`models.py` lines
163-166): a recognized mode is stored lower-cased and `_is_running`
becomes `mode != "off"`. -/
def Thermostat.modeBranch (mode : Option String) (s : ThermostatState) :
    ThermostatState :=
  match mode with
  | none => s
  | some m =>
    if (pyLower m) ∈ ["heat", "cool", "auto", "off"] then
      { s with mode := (pyLower m),
               is_running := if (pyLower m) = "off" then false else true }
    else s

/-- Source `Thermostat.modify_state` (`models.py` lines 158-168): both
branches, returning True iff either argument was given. -/
def Thermostat.modify_state (target_temp : Option ℚ) (mode : Option String)
    (s : ThermostatState) : Bool × ThermostatState :=
  (target_temp.isSome || mode.isSome,
   Thermostat.modeBranch mode (Thermostat.targetBranch target_temp s))

/-- The snapshot `Thermostat.get_state` returns (`models.py` lines
150-156). -/
structure ThermostatSnapshot where
  current_temperature : ℚ
  target_temperature : ℚ
  mode : String
  is_running : Bool
  deriving DecidableEq

/-- Source `Thermostat.get_state`. -/
def Thermostat.get_state (s : ThermostatState) : ThermostatSnapshot :=
  ⟨s.current_temp, s.target_temp, s.mode, s.is_running⟩

/-- The type-specific state of a device, one constructor per
`Device` subclass of `models.py`. -/
inductive VarState where
  | switch (s : SwitchState)
  | dimmer (s : DimmerState)
  | lock (s : LockState)
  | thermostat (s : ThermostatState)
  deriving DecidableEq

/-- A device (`models.py` lines 21-31): identity, the pairing fields
`is_paired` / `hub_id`, and the variant state. -/
structure Device where
  device_id : Nat
  name : String
  is_paired : Bool
  hub_id : Option Nat
  var : VarState
  deriving DecidableEq

/-- Source `Device.__init__` (`models.py` lines 24-30): a fresh device is
unpaired with no hub back-reference. -/
def Device.init (device_id : Nat) (name : String) (v : VarState) : Device :=
  { device_id := device_id, name := name, is_paired := false,
    hub_id := none, var := v }

/-- A hub (`models.py` lines 175-183): identity, the map of paired
devices, and the dwelling back-reference. -/
structure Hub where
  hub_id : Nat
  name : String
  paired_devices : List (Nat × Device)
  dwelling_id : Option Nat
  deriving DecidableEq

/-- Source `Hub.__init__`: empty pairing map, no dwelling. -/
def Hub.init (hub_id : Nat) (name : String) : Hub :=
  { hub_id := hub_id, name := name, paired_devices := [], dwelling_id := none }

/-- Source `Hub.pair_device` (`models.py` lines 185-193).  The source mutates
the device object in place and stores a reference to it in
`paired_devices`; the embedding returns the post-state of the device
alias as the third component. -/
def Hub.pair_device (h : Hub) (d : Device) : Bool × Hub × Device :=
  if d.is_paired then (false, h, d)
  else
    let d2 := { d with is_paired := true, hub_id := some h.hub_id }
    (true, { h with paired_devices := insertKV h.paired_devices d2.device_id d2 }, d2)

/-- Source `Hub.remove_device` (`models.py` lines 195-204).  The source looks
the device up in `paired_devices`, clears its pairing fields in place
and deletes the map entry; the embedding returns the post-state of the
looked-up device alias as the third component (`none` when absent). -/
def Hub.remove_device (h : Hub) (device_id : Nat) : Bool × Hub × Option Device :=
  match alookup h.paired_devices device_id with
  | none => (false, h, none)
  | some d =>
    let d2 := { d with is_paired := false, hub_id := none }
    (true, { h with paired_devices := eraseKey h.paired_devices device_id }, some d2)

/-- A dwelling (`models.py` lines 227-236). -/
structure Dwelling where
  dwelling_id : Nat
  name : String
  address : String
  is_occupied : Bool
  installed_hubs : List (Nat × Hub)
  deriving DecidableEq

/-- Source `Dwelling.__init__`: unoccupied, no installed hubs. -/
def Dwelling.init (dwelling_id : Nat) (name address : String) : Dwelling :=
  { dwelling_id := dwelling_id, name := name, address := address,
    is_occupied := false, installed_hubs := [] }

/-- Source `Dwelling.install_hub` (`models.py` lines 242-249): rejected when
the hub already has a dwelling; otherwise the hub's back-reference is
set and the hub inserted.  The hub alias's post-state is returned. -/
def Dwelling.install_hub (d : Dwelling) (h : Hub) : Bool × Dwelling × Hub :=
  match h.dwelling_id with
  | some _ => (false, d, h)
  | none =>
    let h2 := { h with dwelling_id := some d.dwelling_id }
    (true, { d with installed_hubs := insertKV d.installed_hubs h2.hub_id h2 }, h2)

/-- Source `Dwelling.remove_hub` (`models.py` lines 251-259): rejected when
the id is not installed; otherwise the stored hub's back-reference is
cleared and the entry deleted.  The post-state of the looked-up hub
alias is returned as the third component. -/
def Dwelling.remove_hub (d : Dwelling) (hub_id : Nat) : Bool × Dwelling × Option Hub :=
  match alookup d.installed_hubs hub_id with
  | none => (false, d, none)
  | some h =>
    let h2 := { h with dwelling_id := none }
    (true, { d with installed_hubs := eraseKey d.installed_hubs hub_id }, some h2)

/-- The registry (`device_manager.py` lines 9-15) plus the uuid
determinization counter `nextId`. -/
structure DeviceManager where
  devices : List (Nat × Device)
  main_hub : Option Hub
  dwellings : List (Nat × Dwelling)
  nextId : Nat
  deriving DecidableEq

/-- Source `DeviceManager.__init__`: empty collections. -/
def DeviceManager.init : DeviceManager :=
  { devices := [], main_hub := none, dwellings := [], nextId := 0 }

/-- Source `DeviceManager.delete_device` (`device_manager.py` lines 39-49):
unknown id or paired device leaves everything as is; otherwise the
entry is removed from `devices`. -/
def DeviceManager.delete_device (dm : DeviceManager) (device_id : Nat) :
    Bool × DeviceManager :=
  match alookup dm.devices device_id with
  | none => (false, dm)
  | some d =>
    if d.is_paired then (false, dm)
    else (true, { dm with devices := eraseKey dm.devices device_id })

/-- Source `DeviceManager.create_hub` (`device_manager.py` lines 70-77): when
a main hub exists its id is returned and nothing changes; otherwise a
hub with the freshly generated id is created and stored. -/
def DeviceManager.create_hub (dm : DeviceManager) (name : String) :
    Nat × DeviceManager :=
  match dm.main_hub with
  | some h => (h.hub_id, dm)
  | none =>
    (dm.nextId,
     { dm with main_hub := some (Hub.init dm.nextId name), nextId := dm.nextId + 1 })

/-- Source `DeviceManager.install_hub` (`device_manager.py` lines 128-134):
unknown dwelling or missing hub fails; otherwise delegates to
`Dwelling.install_hub`, the mutated dwelling and hub aliases being
written back. -/
def DeviceManager.install_hub (dm : DeviceManager) (dwelling_id : Nat) :
    Bool × DeviceManager :=
  match alookup dm.dwellings dwelling_id, dm.main_hub with
  | some dw, some h =>
    let r := Dwelling.install_hub dw h
    (r.1, { dm with dwellings := insertKV dm.dwellings dwelling_id r.2.1,
                    main_hub := some r.2.2 })
  | _, _ => (false, dm)

/-- Coerce a bound keyword value into the `Option String` a
`.lower()`-using parameter expects: a non-string present value raises
`AttributeError` at the point `.lower()` is called. -/
def bindStr : Option PyVal → Except PyErr (Option String)
  | none => Except.ok none
  | some (PyVal.str s) => Except.ok (some s)
  | some _ => Except.error PyErr.attributeError

/-- Coerce a bound keyword value into the `Option ℚ` a numeric
comparison expects: ints embed, bools count as 1/0 (Python bool is an
int subclass), floats are their rational value, and comparing a string
raises `TypeError`. -/
def bindNum : Option PyVal → Except PyErr (Option ℚ)
  | none => Except.ok none
  | some (PyVal.int n) => Except.ok (some (n : ℚ))
  | some (PyVal.bool b) => Except.ok (some (if b then 1 else 0))
  | some (PyVal.float q) => Except.ok (some q)
  | some (PyVal.str _) => Except.error PyErr.typeError

/-- The keyword parameters each variant's `modify_state` accepts;
Python call binding raises `TypeError` for any other keyword. -/
def VarState.params : VarState → List String
  | VarState.switch _ => ["power"]
  | VarState.dimmer _ => ["power", "brightness"]
  | VarState.lock _ => ["state", "pin", "is_armed"]
  | VarState.thermostat _ => ["target_temp", "mode"]

/-- Source `Switch.modify_state` under Python call semantics: keyword binding
first, then the body; the (possibly partially) mutated state is
threaded alongside an error. -/
def Switch.modify_state_kw (kwargs : Kw) (s : SwitchState) :
    Except PyErr Bool × SwitchState :=
  if kwargs.any (fun kv => !(["power"].contains kv.1)) then
    (Except.error PyErr.typeError, s)
  else
    match bindStr (alookup kwargs "power") with
    | Except.error e => (Except.error e, s)
    | Except.ok p =>
      let r := Switch.modify_state p s
      (Except.ok r.1, r.2)

/-- Source `Dimmer.modify_state` under Python call semantics.  The power
branch runs (and may mutate) before the brightness comparison can
raise, exactly as in the source. -/
def Dimmer.modify_state_kw (kwargs : Kw) (s : DimmerState) :
    Except PyErr Bool × DimmerState :=
  if kwargs.any (fun kv => !(["power", "brightness"].contains kv.1)) then
    (Except.error PyErr.typeError, s)
  else
    match bindStr (alookup kwargs "power") with
    | Except.error e => (Except.error e, s)
    | Except.ok p =>
      let s1 := Dimmer.powerBranch p s
      match bindNum (alookup kwargs "brightness") with
      | Except.error e => (Except.error e, s1)
      | Except.ok b =>
        let r := Dimmer.brightnessStep p b s1
        (Except.ok r.1, r.2)

/-- Source `Lock.modify_state` under Python call semantics: only the `state`
keyword can raise (its `.lower()`); `pin` and `is_armed` are stored by
plain assignment whatever their value. -/
def Lock.modify_state_kw (kwargs : Kw) (s : LockState) :
    Except PyErr Bool × LockState :=
  if kwargs.any (fun kv => !(["state", "pin", "is_armed"].contains kv.1)) then
    (Except.error PyErr.typeError, s)
  else
    match bindStr (alookup kwargs "state") with
    | Except.error e => (Except.error e, s)
    | Except.ok st =>
      let r := Lock.modify_state st (alookup kwargs "pin") (alookup kwargs "is_armed") s
      (Except.ok r.1, r.2)

/-- Source `Thermostat.modify_state` under Python call semantics: the
target-temperature comparison runs (and may mutate) before the mode's
`.lower()` can raise. -/
def Thermostat.modify_state_kw (kwargs : Kw) (s : ThermostatState) :
    Except PyErr Bool × ThermostatState :=
  if kwargs.any (fun kv => !(["target_temp", "mode"].contains kv.1)) then
    (Except.error PyErr.typeError, s)
  else
    match bindNum (alookup kwargs "target_temp") with
    | Except.error e => (Except.error e, s)
    | Except.ok t =>
      let s1 := Thermostat.targetBranch t s
      match bindStr (alookup kwargs "mode") with
      | Except.error e => (Except.error e, s1)
      | Except.ok m => (Except.ok (t.isSome || m.isSome), Thermostat.modeBranch m s1)

/-- Dynamic dispatch of `device.modify_state(**kwargs)` over the
variant, returning the mutated device. -/
def Device.modify_state_kw (kwargs : Kw) (d : Device) :
    Except PyErr Bool × Device :=
  match d.var with
  | VarState.switch s =>
    let r := Switch.modify_state_kw kwargs s
    (r.1, { d with var := VarState.switch r.2 })
  | VarState.dimmer s =>
    let r := Dimmer.modify_state_kw kwargs s
    (r.1, { d with var := VarState.dimmer r.2 })
  | VarState.lock s =>
    let r := Lock.modify_state_kw kwargs s
    (r.1, { d with var := VarState.lock r.2 })
  | VarState.thermostat s =>
    let r := Thermostat.modify_state_kw kwargs s
    (r.1, { d with var := VarState.thermostat r.2 })

/-- Source `DeviceManager.modify_device` (`device_manager.py` lines 58-64):
unknown id returns False; otherwise the call is delegated to the
device's `modify_state`, whose exception — if any — propagates out of
the registry while the device keeps any mutation already applied. -/
def DeviceManager.modify_device (dm : DeviceManager) (device_id : Nat)
    (kwargs : Kw) : Except PyErr Bool × DeviceManager :=
  match alookup dm.devices device_id with
  | none => (Except.ok false, dm)
  | some d =>
    let r := Device.modify_state_kw kwargs d
    (r.1, { dm with devices := insertKV dm.devices device_id r.2 })

/-- One keyword binding is acceptable to a variant when its name is a
parameter of that variant's `modify_state` and its value has the
runtime type the body's operations require (strings where `.lower()`
is called, numbers where a range comparison happens, anything for
`pin` / `is_armed`). -/
def kwOK (v : VarState) (kv : String × PyVal) : Bool :=
  match v with
  | VarState.switch _ =>
    kv.1 = "power" && kv.2.isStr
  | VarState.dimmer _ =>
    (kv.1 = "power" && kv.2.isStr) ||
    (kv.1 = "brightness" && !kv.2.isStr)
  | VarState.lock _ =>
    (kv.1 = "state" && kv.2.isStr) ||
    kv.1 = "pin" || kv.1 = "is_armed"
  | VarState.thermostat _ =>
    (kv.1 = "target_temp" && !kv.2.isStr) ||
    (kv.1 = "mode" && kv.2.isStr)

/-- A bundle is well typed for a variant when every binding is. -/
def wellTypedKw (v : VarState) (kwargs : Kw) : Bool :=
  kwargs.all (kwOK v)

/-- Every device-field state a sequence of `Hub.pair_device` /
`Hub.remove_device` calls can leave a device in, starting from a
freshly constructed device.  `pair` follows the alias returned for the
argument device; `remove` follows the alias of the device looked up in
the hub's map (for a miss the device in hand is untouched, which is
already covered by the predecessor state). -/
inductive ReachableDevice : Device → Prop where
  | init : ∀ (id : Nat) (name : String) (v : VarState),
      ReachableDevice (Device.init id name v)
  | pair : ∀ (h : Hub) (d : Device), ReachableDevice d →
      ReachableDevice (Hub.pair_device h d).2.2
  | removeHit : ∀ (h : Hub) (id : Nat) (b : Bool) (h2 : Hub) (d2 : Device),
      Hub.remove_device h id = (b, h2, some d2) → ReachableDevice d2

theorem alookup_insertKV_self {κ α : Type} [DecidableEq κ]
    (m : List (κ × α)) (k : κ) (v : α) :
    alookup (insertKV m k v) k = some v := by
  induction m with
  | nil => simp [insertKV, alookup]
  | cons kv rest ih =>
    by_cases hk : kv.1 = k
    · simp [insertKV, hk, alookup]
    · simp [insertKV, hk, alookup, ih]

theorem alookup_eraseKey_self {κ α : Type} [DecidableEq κ]
    (m : List (κ × α)) (k : κ) :
    alookup (eraseKey m k) k = none := by
  induction m with
  | nil => simp [eraseKey, alookup]
  | cons kv rest ih =>
    by_cases hk : kv.1 = k
    · simp [eraseKey, hk, ih]
    · simp [eraseKey, hk, alookup, ih]

theorem alookup_eraseKey_ne {κ α : Type} [DecidableEq κ]
    (m : List (κ × α)) (k k2 : κ) (hne : k2 ≠ k) :
    alookup (eraseKey m k) k2 = alookup m k2 := by
  induction m with
  | nil => simp [eraseKey]
  | cons kv rest ih =>
    by_cases hk : kv.1 = k
    · subst hk
      simp [eraseKey, alookup, Ne.symm hne, ih]
    · by_cases hk2 : kv.1 = k2
      · simp [eraseKey, hk, alookup, hk2, hne]
      · simp [eraseKey, hk, alookup, hk2, ih]

theorem alookup_mem {κ α : Type} [DecidableEq κ]
    {m : List (κ × α)} {k : κ} {v : α} (h : alookup m k = some v) :
    (k, v) ∈ m := by
  induction m with
  | nil => simp [alookup] at h
  | cons kv rest ih =>
    obtain ⟨k1, v1⟩ := kv
    by_cases hk : k1 = k
    · subst hk
      simp [alookup] at h
      subst h
      exact List.mem_cons_self _ _
    · simp [alookup, hk] at h
      exact List.mem_cons_of_mem _ (ih h)

theorem any_eq_false_of_all {α : Type} {p q : α → Bool} {l : List α}
    (himp : ∀ a, p a = true → q a = false) (hall : l.all p = true) :
    l.any q = false := by
  induction l with
  | nil => rfl
  | cons a t ih =>
    simp only [List.all_cons, Bool.and_eq_true] at hall
    simp [List.any_cons, himp a hall.1, ih hall.2]

/-- Claim C1: for every device and every sequence of `Hub.pair_device`
and `Hub.remove_device` operations, after each operation the device
satisfies `is_paired == (hub_id != null)`: pairing sets both fields
together, removal clears both together, so the equivalence holds in
every reachable device state. -/
theorem pairing_invariant (d : Device) (hr : ReachableDevice d) :
    d.is_paired = d.hub_id.isSome := by
  induction hr with
  | init id name v => simp [Device.init]
  | pair h d hd ih =>
    by_cases hp : d.is_paired
    · simp [Hub.pair_device, hp]
      rw [← ih]
      exact hp
    · simp [Hub.pair_device, hp]
  | removeHit h id b h2 d2 heq =>
    unfold Hub.remove_device at heq
    cases hl : alookup h.paired_devices id with
    | none => simp [hl] at heq
    | some d0 =>
      simp [hl] at heq
      rw [← heq.2.2]
      simp

/-- Witness for C1 at a concrete reachable state: a fresh switch just
paired to a fresh hub satisfies the invariant. -/
theorem pairing_invariant_witness :
    ((Hub.pair_device (Hub.init 10 "Main Hub")
        (Device.init 1 "sw" (VarState.switch Switch.init))).2.2).is_paired =
      ((Hub.pair_device (Hub.init 10 "Main Hub")
        (Device.init 1 "sw" (VarState.switch Switch.init))).2.2).hub_id.isSome :=
  pairing_invariant _
    (ReachableDevice.pair (Hub.init 10 "Main Hub")
      (Device.init 1 "sw" (VarState.switch Switch.init))
      (ReachableDevice.init 1 "sw" (VarState.switch Switch.init)))

/-- Claim C2: `Hub.pair_device` on an already-paired device returns
false and mutates neither the device, nor the hub's map (hence its
count); on an unpaired device it returns true, sets `is_paired` and
`hub_id` to this hub's id, leaves the rest of the device alone, and
inserts the device into `paired_devices`. -/
theorem pair_device_spec (h : Hub) (d : Device) :
    (d.is_paired = true → Hub.pair_device h d = (false, h, d)) ∧
    (d.is_paired = false →
      (Hub.pair_device h d).1 = true ∧
      (Hub.pair_device h d).2.2.is_paired = true ∧
      (Hub.pair_device h d).2.2.hub_id = some h.hub_id ∧
      (Hub.pair_device h d).2.2.device_id = d.device_id ∧
      (Hub.pair_device h d).2.2.name = d.name ∧
      (Hub.pair_device h d).2.2.var = d.var ∧
      alookup (Hub.pair_device h d).2.1.paired_devices d.device_id =
        some (Hub.pair_device h d).2.2 ∧
      (Hub.pair_device h d).2.1.hub_id = h.hub_id ∧
      (Hub.pair_device h d).2.1.name = h.name ∧
      (Hub.pair_device h d).2.1.dwelling_id = h.dwelling_id) := by
  constructor
  · intro hp
    simp [Hub.pair_device, hp]
  · intro hp
    simp [Hub.pair_device, hp, alookup_insertKV_self]

/-- Witness for C2: a paired device is rejected without mutation, and
an unpaired one is paired and inserted. -/
theorem pair_device_spec_witness :
    Hub.pair_device (Hub.init 10 "Main Hub")
      { Device.init 1 "sw" (VarState.switch Switch.init) with
        is_paired := true, hub_id := some 9 } =
      (false, Hub.init 10 "Main Hub",
       { Device.init 1 "sw" (VarState.switch Switch.init) with
         is_paired := true, hub_id := some 9 }) ∧
    (Hub.pair_device (Hub.init 10 "Main Hub")
      (Device.init 2 "sw2" (VarState.switch Switch.init))).1 = true :=
  ⟨(pair_device_spec (Hub.init 10 "Main Hub")
      { Device.init 1 "sw" (VarState.switch Switch.init) with
        is_paired := true, hub_id := some 9 }).1 rfl,
   ((pair_device_spec (Hub.init 10 "Main Hub")
      (Device.init 2 "sw2" (VarState.switch Switch.init))).2 rfl).1⟩

/-- Claim C3: `delete_device` returns false and leaves the registry's
devices unchanged when the id is unknown or the device is paired; for
a known unpaired id it returns true and removes exactly that device —
the id no longer resolves, every other id resolves as before, and the
hub, the dwellings and the id counter are untouched. -/
theorem delete_device_spec (dm : DeviceManager) (device_id : Nat) :
    (alookup dm.devices device_id = none →
      DeviceManager.delete_device dm device_id = (false, dm)) ∧
    (∀ d, alookup dm.devices device_id = some d → d.is_paired = true →
      DeviceManager.delete_device dm device_id = (false, dm)) ∧
    (∀ d, alookup dm.devices device_id = some d → d.is_paired = false →
      (DeviceManager.delete_device dm device_id).1 = true ∧
      alookup (DeviceManager.delete_device dm device_id).2.devices device_id = none ∧
      (∀ id2, id2 ≠ device_id →
        alookup (DeviceManager.delete_device dm device_id).2.devices id2 =
          alookup dm.devices id2) ∧
      (DeviceManager.delete_device dm device_id).2.main_hub = dm.main_hub ∧
      (DeviceManager.delete_device dm device_id).2.dwellings = dm.dwellings ∧
      (DeviceManager.delete_device dm device_id).2.nextId = dm.nextId) := by
  refine ⟨?_, ?_, ?_⟩
  · intro hl
    simp [DeviceManager.delete_device, hl]
  · intro d hl hp
    simp [DeviceManager.delete_device, hl, hp]
  · intro d hl hp
    refine ⟨?_, ?_, ?_, ?_, ?_, ?_⟩
    · simp [DeviceManager.delete_device, hl, hp]
    · simp [DeviceManager.delete_device, hl, hp, alookup_eraseKey_self]
    · intro id2 hne
      simp [DeviceManager.delete_device, hl, hp, alookup_eraseKey_ne _ _ _ hne]
    · simp [DeviceManager.delete_device, hl, hp]
    · simp [DeviceManager.delete_device, hl, hp]
    · simp [DeviceManager.delete_device, hl, hp]

/-- Witness for C3: deleting an unpaired device from a one-device
registry succeeds and empties the lookup at its id. -/
theorem delete_device_spec_witness :
    (DeviceManager.delete_device
      { devices := [(1, Device.init 1 "sw" (VarState.switch Switch.init))],
        main_hub := none, dwellings := [], nextId := 2 } 1).1 = true ∧
    alookup (DeviceManager.delete_device
      { devices := [(1, Device.init 1 "sw" (VarState.switch Switch.init))],
        main_hub := none, dwellings := [], nextId := 2 } 1).2.devices 1 = none :=
  ⟨(((delete_device_spec
      { devices := [(1, Device.init 1 "sw" (VarState.switch Switch.init))],
        main_hub := none, dwellings := [], nextId := 2 } 1).2.2)
      (Device.init 1 "sw" (VarState.switch Switch.init)) (by decide) rfl).1,
   (((delete_device_spec
      { devices := [(1, Device.init 1 "sw" (VarState.switch Switch.init))],
        main_hub := none, dwellings := [], nextId := 2 } 1).2.2)
      (Device.init 1 "sw" (VarState.switch Switch.init)) (by decide) rfl).2.1⟩

/-- Claim C7: `unlock_with_pin` returns true and unlocks iff the
candidate equals the stored pin; any other candidate returns false
and changes no field (state, pin, is_armed all unchanged). -/
theorem unlock_with_pin_spec (s : LockState) (c : String) :
    ((Lock.unlock_with_pin c s).1 = true ↔ s.pin = PyVal.str c) ∧
    (s.pin = PyVal.str c →
      Lock.unlock_with_pin c s =
        (true, { s with state := DeviceState.unlocked })) ∧
    (s.pin ≠ PyVal.str c → Lock.unlock_with_pin c s = (false, s)) := by
  refine ⟨?_, ?_, ?_⟩
  · by_cases hp : PyVal.str c = s.pin
    · simp [Lock.unlock_with_pin, hp]
    · simp [Lock.unlock_with_pin, hp]
      exact fun h => hp h.symm
  · intro hp
    simp [Lock.unlock_with_pin, hp]
  · intro hp
    have hne : ¬ PyVal.str c = s.pin := fun h => hp h.symm
    simp [Lock.unlock_with_pin, hne]

/-- Counterexample to claim C5: on a fresh dimmer,
`modify_state(brightness=150)` with power absent returns True, not
False as the claim states — control falls through to
`return power is not None or brightness is not None`, and brightness
was supplied. -/
theorem dimmer_return_counterexample :
    (Dimmer.modify_state none (some 150) Dimmer.init).1 = true := by
  decide

/-- Claim C5 as amended: `Dimmer.modify_state` returns true iff power
was supplied or brightness was supplied, regardless of validity; an
out-of-range brightness with power absent still returns true while
leaving the state unchanged. -/
theorem dimmer_modify_return (s : DimmerState) (power : Option String)
    (brightness : Option ℚ) :
    ((Dimmer.modify_state power brightness s).1 =
      (power.isSome || brightness.isSome)) ∧
    (∀ b, brightness = some b → ¬(0 ≤ b ∧ b ≤ 100) → power = none →
      (Dimmer.modify_state power brightness s).2 = s) := by
  constructor
  · unfold Dimmer.modify_state Dimmer.brightnessStep
    match brightness with
    | none => simp
    | some b =>
      by_cases hb : 0 ≤ b ∧ b ≤ 100
      · simp [hb]
      · simp [hb]
  · intro b hb hrange hp
    subst hb
    subst hp
    simp [Dimmer.modify_state, Dimmer.powerBranch, Dimmer.brightnessStep, hrange]

/-- Witness for the amended C5: brightness 150 on a fresh dimmer
returns true (supplied field) yet changes nothing. -/
theorem dimmer_modify_return_witness :
    (Dimmer.modify_state none (some 150) Dimmer.init).1 =
      ((none : Option String).isSome || (some (150 : ℚ)).isSome) ∧
    (Dimmer.modify_state none (some 150) Dimmer.init).2 = Dimmer.init :=
  ⟨(dimmer_modify_return Dimmer.init none (some 150)).1,
   (dimmer_modify_return Dimmer.init none (some 150)).2 150 rfl
     (by norm_num) rfl⟩

/-- Counterexample to claim C6: `modify_state(power="banana")` on a
fresh switch supplies the power field yet returns False — the body
only returns True inside the validity check and otherwise falls to
`return False`. -/
theorem switch_return_counterexample :
    (Switch.modify_state (some "banana") Switch.init).1 = false := by
  decide

/-- Claim C6 as amended: `Switch.modify_state` accepts case-insensitive
"on"/"off" and applies it returning true; an invalid power value is a
no-op on the state AND returns false, so the call returns true iff
power was supplied with a recognized value. -/
theorem switch_modify_return (s : SwitchState) (power : Option String) :
    ((Switch.modify_state power s).1 = true ↔
      ∃ p, power = some p ∧ ((pyLower p) = "on" ∨ (pyLower p) = "off")) ∧
    (∀ p, power = some p → (pyLower p) = "on" →
      Switch.modify_state power s = (true, ⟨DeviceState.on⟩)) ∧
    (∀ p, power = some p → (pyLower p) = "off" →
      Switch.modify_state power s = (true, ⟨DeviceState.off⟩)) ∧
    (∀ p, power = some p → (pyLower p) ≠ "on" → (pyLower p) ≠ "off" →
      Switch.modify_state power s = (false, s)) := by
  refine ⟨?_, ?_, ?_, ?_⟩
  · match power with
    | none => simp [Switch.modify_state]
    | some p =>
      by_cases hon : (pyLower p) = "on"
      · simp [Switch.modify_state, hon]
      · by_cases hoff : (pyLower p) = "off"
        · simp [Switch.modify_state, hon, hoff]
        · simp [Switch.modify_state, hon, hoff]
  · intro p hp hon
    subst hp
    simp [Switch.modify_state, hon]
  · intro p hp hoff
    subst hp
    by_cases hon : (pyLower p) = "on"
    · exact absurd (hon.symm.trans hoff) (by decide)
    · simp [Switch.modify_state, hon, hoff]
  · intro p hp hon hoff
    subst hp
    simp [Switch.modify_state, hon, hoff]

/-- Witness for the amended C6: "ON" is applied case-insensitively and
"banana" is rejected with no state change. -/
theorem switch_modify_return_witness :
    Switch.modify_state (some "ON") Switch.init = (true, ⟨DeviceState.on⟩) ∧
    Switch.modify_state (some "banana") Switch.init = (false, Switch.init) :=
  ⟨(switch_modify_return Switch.init (some "ON")).2.1 "ON" rfl (by decide),
   (switch_modify_return Switch.init (some "banana")).2.2.2 "banana" rfl
     (by decide) (by decide)⟩

/-- Claim C10: a freshly created thermostat reports current 72.0,
target 72.0, mode "heat", not running — so the implication
"mode != off implies is_running" fails in the initial state even
though every `modify_state` call supplying a (recognized) mode
establishes it. -/
theorem thermostat_initial_state :
    Thermostat.get_state Thermostat.init =
      { current_temperature := 72, target_temperature := 72,
        mode := "heat", is_running := false } ∧
    (Thermostat.init.mode ≠ "off" ∧ Thermostat.init.is_running = false) ∧
    (∀ (s : ThermostatState) (t : Option ℚ) (m : String),
      (pyLower m) ∈ ["heat", "cool", "auto", "off"] →
      (Thermostat.modify_state t (some m) s).2.mode ≠ "off" →
      (Thermostat.modify_state t (some m) s).2.is_running = true) := by
  refine ⟨rfl, ⟨by decide, rfl⟩, ?_⟩
  intro s t m hm
  by_cases hoff : (pyLower m) = "off"
  · simp [Thermostat.modify_state, Thermostat.modeBranch, hm, hoff]
  · simp [Thermostat.modify_state, Thermostat.modeBranch, hm, hoff]

/-- Witness for C10: the initial state snapshot is as claimed, and a
"cool" mode change on the fresh thermostat turns `is_running` on. -/
theorem thermostat_initial_state_witness :
    Thermostat.get_state Thermostat.init =
      { current_temperature := 72, target_temperature := 72,
        mode := "heat", is_running := false } ∧
    (Thermostat.modify_state none (some "cool") Thermostat.init).2.is_running =
      true :=
  ⟨thermostat_initial_state.1,
   thermostat_initial_state.2.2 Thermostat.init none "cool" (by decide)
     (by decide)⟩


/-- Witness for C7: a lock created with pin "5678" unlocks on "5678"
and rejects "0000" untouched. -/
theorem unlock_with_pin_spec_witness :
    Lock.unlock_with_pin "5678" (Lock.init "5678") =
      (true, { Lock.init "5678" with state := DeviceState.unlocked }) ∧
    Lock.unlock_with_pin "0000" (Lock.init "5678") = (false, Lock.init "5678") :=
  ⟨(unlock_with_pin_spec (Lock.init "5678") "5678").2.1 rfl,
   (unlock_with_pin_spec (Lock.init "5678") "0000").2.2 (by decide)⟩

/-- Claim C8: `create_hub` is idempotent — with a main hub already
present it returns that hub's id and changes nothing at all; with none
it creates a hub carrying the freshly generated id (the current value
of the uuid-determinizing counter), stores it untouched elsewhere, and
a further call (with any name) returns the same id with no change. -/
theorem create_hub_idempotent (dm : DeviceManager) (name name2 : String) :
    (∀ h, dm.main_hub = some h →
      DeviceManager.create_hub dm name = (h.hub_id, dm)) ∧
    (dm.main_hub = none →
      (DeviceManager.create_hub dm name).1 = dm.nextId ∧
      (DeviceManager.create_hub dm name).2.main_hub =
        some (Hub.init dm.nextId name) ∧
      (DeviceManager.create_hub dm name).2.devices = dm.devices ∧
      (DeviceManager.create_hub dm name).2.dwellings = dm.dwellings ∧
      DeviceManager.create_hub (DeviceManager.create_hub dm name).2 name2 =
        ((DeviceManager.create_hub dm name).1,
         (DeviceManager.create_hub dm name).2)) := by
  constructor
  · intro h hm
    simp [DeviceManager.create_hub, hm]
  · intro hm
    simp [DeviceManager.create_hub, hm, Hub.init]

/-- Witness for C8: on an empty registry the first call returns id 0
and a second call returns the same id without further change. -/
theorem create_hub_idempotent_witness :
    (DeviceManager.create_hub DeviceManager.init "Main Hub").1 = 0 ∧
    DeviceManager.create_hub
        (DeviceManager.create_hub DeviceManager.init "Main Hub").2 "Other" =
      ((DeviceManager.create_hub DeviceManager.init "Main Hub").1,
       (DeviceManager.create_hub DeviceManager.init "Main Hub").2) :=
  ⟨((create_hub_idempotent DeviceManager.init "Main Hub" "Other").2 rfl).1,
   ((create_hub_idempotent DeviceManager.init "Main Hub" "Other").2 rfl).2.2.2.2⟩

/-- Claim C9: `Dwelling.install_hub` fails without mutation whenever
the hub's `dwelling_id` is already set — in particular re-installing
the hub just installed (into the same dwelling) fails — and the round
trip works: after a successful install, `remove_hub` on that hub's id
returns true and clears the hub's `dwelling_id`, after which a further
install into the same dwelling succeeds again. -/
theorem install_hub_roundtrip (d : Dwelling) (h : Hub) :
    (∀ x, h.dwelling_id = some x → Dwelling.install_hub d h = (false, d, h)) ∧
    (h.dwelling_id = none →
      (Dwelling.install_hub d h).1 = true ∧
      (Dwelling.install_hub d h).2.2.dwelling_id = some d.dwelling_id ∧
      (Dwelling.install_hub (Dwelling.install_hub d h).2.1
        (Dwelling.install_hub d h).2.2).1 = false ∧
      (Dwelling.remove_hub (Dwelling.install_hub d h).2.1 h.hub_id).1 = true ∧
      (∃ h2, (Dwelling.remove_hub (Dwelling.install_hub d h).2.1 h.hub_id).2.2 =
          some h2 ∧
        h2.dwelling_id = none ∧
        (Dwelling.install_hub
          (Dwelling.remove_hub (Dwelling.install_hub d h).2.1 h.hub_id).2.1
          h2).1 = true)) := by
  constructor
  · intro x hx
    simp [Dwelling.install_hub, hx]
  · intro hx
    refine ⟨?_, ?_, ?_, ?_, ?_⟩
    · simp [Dwelling.install_hub, hx]
    · simp [Dwelling.install_hub, hx]
    · simp [Dwelling.install_hub, hx]
    · simp [Dwelling.install_hub, Dwelling.remove_hub, hx,
        alookup_insertKV_self]
    · refine ⟨{ h with dwelling_id := none }, ?_, rfl, ?_⟩
      · simp [Dwelling.install_hub, Dwelling.remove_hub, hx,
          alookup_insertKV_self]
      · simp [Dwelling.install_hub, Dwelling.remove_hub, hx,
          alookup_insertKV_self]

/-- Witness for C9: installing a fresh hub into a fresh dwelling
succeeds, an immediate re-install fails, and the remove/install round
trip succeeds. -/
theorem install_hub_roundtrip_witness :
    (Dwelling.install_hub (Dwelling.init 5 "Home" "123 Main St")
      (Hub.init 10 "Main Hub")).1 = true ∧
    (Dwelling.install_hub
      (Dwelling.install_hub (Dwelling.init 5 "Home" "123 Main St")
        (Hub.init 10 "Main Hub")).2.1
      (Dwelling.install_hub (Dwelling.init 5 "Home" "123 Main St")
        (Hub.init 10 "Main Hub")).2.2).1 = false ∧
    (Dwelling.remove_hub
      (Dwelling.install_hub (Dwelling.init 5 "Home" "123 Main St")
        (Hub.init 10 "Main Hub")).2.1 10).1 = true :=
  ⟨((install_hub_roundtrip (Dwelling.init 5 "Home" "123 Main St")
      (Hub.init 10 "Main Hub")).2 rfl).1,
   ((install_hub_roundtrip (Dwelling.init 5 "Home" "123 Main St")
      (Hub.init 10 "Main Hub")).2 rfl).2.2.1,
   ((install_hub_roundtrip (Dwelling.init 5 "Home" "123 Main St")
      (Hub.init 10 "Main Hub")).2 rfl).2.2.2.1⟩

theorem bindStr_ok_of_isStr (v : PyVal) (hv : v.isStr = true) :
    ∃ s, bindStr (some v) = Except.ok (some s) := by
  cases v with
  | str s => exact ⟨s, rfl⟩
  | int n => simp [PyVal.isStr] at hv
  | bool b => simp [PyVal.isStr] at hv
  | float q => simp [PyVal.isStr] at hv

theorem bindNum_ok_of_not_isStr (v : PyVal) (hv : v.isStr = false) :
    ∃ q, bindNum (some v) = Except.ok (some q) := by
  cases v with
  | str s => simp [PyVal.isStr] at hv
  | int n => exact ⟨(n : ℚ), rfl⟩
  | bool b => exact ⟨if b then 1 else 0, rfl⟩
  | float q => exact ⟨q, rfl⟩

theorem switch_kw_no_raise (kwargs : Kw) (s : SwitchState)
    (hw : wellTypedKw (VarState.switch s) kwargs = true) :
    ExceptOk (Switch.modify_state_kw kwargs s).1 = true := by
  have hall : ∀ kv ∈ kwargs, kwOK (VarState.switch s) kv = true := by
    simpa [wellTypedKw, List.all_eq_true] using hw
  have hany : kwargs.any (fun kv => !(["power"].contains kv.1)) = false := by
    apply any_eq_false_of_all (p := kwOK (VarState.switch s)) _ hw
    intro kv hkv
    rcases kv with ⟨k, v⟩
    simp only [kwOK, Bool.and_eq_true, decide_eq_true_eq] at hkv
    simp [hkv.1]
  cases hlp : alookup kwargs "power" with
  | none =>
    simp only [Switch.modify_state_kw, hany, hlp, bindStr]
    simp [ExceptOk]
  | some v =>
    have hOK := hall _ (alookup_mem hlp)
    simp only [kwOK, Bool.and_eq_true, decide_eq_true_eq] at hOK
    obtain ⟨sv, hsv⟩ := bindStr_ok_of_isStr v hOK.2
    simp only [Switch.modify_state_kw, hany, hlp, hsv]
    simp [ExceptOk]

theorem dimmer_kw_no_raise (kwargs : Kw) (s : DimmerState)
    (hw : wellTypedKw (VarState.dimmer s) kwargs = true) :
    ExceptOk (Dimmer.modify_state_kw kwargs s).1 = true := by
  have hall : ∀ kv ∈ kwargs, kwOK (VarState.dimmer s) kv = true := by
    simpa [wellTypedKw, List.all_eq_true] using hw
  have hany : kwargs.any (fun kv => !(["power", "brightness"].contains kv.1)) = false := by
    apply any_eq_false_of_all (p := kwOK (VarState.dimmer s)) _ hw
    intro kv hkv
    rcases kv with ⟨k, v⟩
    simp only [kwOK, Bool.and_eq_true, Bool.or_eq_true, decide_eq_true_eq] at hkv
    rcases hkv with hkv | hkv <;> simp [hkv.1]
  have hps : ∀ v, alookup kwargs "power" = some v → v.isStr = true := by
    intro v hlp
    have hOK := hall _ (alookup_mem hlp)
    simp only [kwOK, Bool.and_eq_true, Bool.or_eq_true, decide_eq_true_eq] at hOK
    rcases hOK with hOK | hOK
    · exact hOK.2
    · exact absurd hOK.1 (by decide)
  have hbs : ∀ v, alookup kwargs "brightness" = some v → v.isStr = false := by
    intro v hlb
    have hOK := hall _ (alookup_mem hlb)
    simp only [kwOK, Bool.and_eq_true, Bool.or_eq_true, decide_eq_true_eq] at hOK
    rcases hOK with hOK | hOK
    · exact absurd hOK.1 (by decide)
    · simpa using hOK.2
  cases hlp : alookup kwargs "power" with
  | none =>
    cases hlb : alookup kwargs "brightness" with
    | none =>
      simp only [Dimmer.modify_state_kw, hany, hlp, hlb, bindStr, bindNum]
      simp [ExceptOk]
    | some v =>
      obtain ⟨q, hq⟩ := bindNum_ok_of_not_isStr v (hbs v hlb)
      simp only [Dimmer.modify_state_kw, hany, hlp, hlb, bindStr, hq]
      simp [ExceptOk]
  | some v =>
    obtain ⟨sv, hsv⟩ := bindStr_ok_of_isStr v (hps v hlp)
    cases hlb : alookup kwargs "brightness" with
    | none =>
      simp only [Dimmer.modify_state_kw, hany, hlp, hlb, hsv, bindNum]
      simp [ExceptOk]
    | some v2 =>
      obtain ⟨q, hq⟩ := bindNum_ok_of_not_isStr v2 (hbs v2 hlb)
      simp only [Dimmer.modify_state_kw, hany, hlp, hlb, hsv, hq]
      simp [ExceptOk]

theorem lock_kw_no_raise (kwargs : Kw) (s : LockState)
    (hw : wellTypedKw (VarState.lock s) kwargs = true) :
    ExceptOk (Lock.modify_state_kw kwargs s).1 = true := by
  have hall : ∀ kv ∈ kwargs, kwOK (VarState.lock s) kv = true := by
    simpa [wellTypedKw, List.all_eq_true] using hw
  have hany : kwargs.any
      (fun kv => !(["state", "pin", "is_armed"].contains kv.1)) = false := by
    apply any_eq_false_of_all (p := kwOK (VarState.lock s)) _ hw
    intro kv hkv
    rcases kv with ⟨k, v⟩
    simp only [kwOK, Bool.and_eq_true, Bool.or_eq_true, decide_eq_true_eq] at hkv
    rcases hkv with (hkv | hkv) | hkv
    · simp [hkv.1]
    · simp [hkv]
    · simp [hkv]
  cases hls : alookup kwargs "state" with
  | none =>
    simp only [Lock.modify_state_kw, hany, hls, bindStr]
    simp [ExceptOk]
  | some v =>
    have hOK := hall _ (alookup_mem hls)
    simp only [kwOK, Bool.and_eq_true, Bool.or_eq_true, decide_eq_true_eq] at hOK
    have hstr : v.isStr = true := by
      rcases hOK with (hOK | hOK) | hOK
      · exact hOK.2
      · exact absurd hOK (by decide)
      · exact absurd hOK (by decide)
    obtain ⟨sv, hsv⟩ := bindStr_ok_of_isStr v hstr
    simp only [Lock.modify_state_kw, hany, hls, hsv]
    simp [ExceptOk]

theorem thermostat_kw_no_raise (kwargs : Kw) (s : ThermostatState)
    (hw : wellTypedKw (VarState.thermostat s) kwargs = true) :
    ExceptOk (Thermostat.modify_state_kw kwargs s).1 = true := by
  have hall : ∀ kv ∈ kwargs, kwOK (VarState.thermostat s) kv = true := by
    simpa [wellTypedKw, List.all_eq_true] using hw
  have hany : kwargs.any
      (fun kv => !(["target_temp", "mode"].contains kv.1)) = false := by
    apply any_eq_false_of_all (p := kwOK (VarState.thermostat s)) _ hw
    intro kv hkv
    rcases kv with ⟨k, v⟩
    simp only [kwOK, Bool.and_eq_true, Bool.or_eq_true, decide_eq_true_eq] at hkv
    rcases hkv with hkv | hkv <;> simp [hkv.1]
  have hts : ∀ v, alookup kwargs "target_temp" = some v → v.isStr = false := by
    intro v hlt
    have hOK := hall _ (alookup_mem hlt)
    simp only [kwOK, Bool.and_eq_true, Bool.or_eq_true, decide_eq_true_eq] at hOK
    rcases hOK with hOK | hOK
    · simpa using hOK.2
    · exact absurd hOK.1 (by decide)
  have hms : ∀ v, alookup kwargs "mode" = some v → v.isStr = true := by
    intro v hlm
    have hOK := hall _ (alookup_mem hlm)
    simp only [kwOK, Bool.and_eq_true, Bool.or_eq_true, decide_eq_true_eq] at hOK
    rcases hOK with hOK | hOK
    · exact absurd hOK.1 (by decide)
    · exact hOK.2
  cases hlt : alookup kwargs "target_temp" with
  | none =>
    cases hlm : alookup kwargs "mode" with
    | none =>
      simp only [Thermostat.modify_state_kw, hany, hlt, hlm, bindStr, bindNum]
      simp [ExceptOk]
    | some v =>
      obtain ⟨sv, hsv⟩ := bindStr_ok_of_isStr v (hms v hlm)
      simp only [Thermostat.modify_state_kw, hany, hlt, hlm, bindNum, hsv]
      simp [ExceptOk]
  | some v =>
    obtain ⟨q, hq⟩ := bindNum_ok_of_not_isStr v (hts v hlt)
    cases hlm : alookup kwargs "mode" with
    | none =>
      simp only [Thermostat.modify_state_kw, hany, hlt, hlm, hq, bindStr]
      simp [ExceptOk]
    | some v2 =>
      obtain ⟨sv, hsv⟩ := bindStr_ok_of_isStr v2 (hms v2 hlm)
      simp only [Thermostat.modify_state_kw, hany, hlt, hlm, hq, hsv]
      simp [ExceptOk]

/-- Counterexample to claim C4: `modify_device` on a registry holding
a switch, called with the bundle `{brightness: 50}` — a field name the
switch variant does not recognize — does not return a boolean: Python
call binding raises `TypeError`, which escapes the Registry
boundary. -/
theorem modify_device_raises :
    (DeviceManager.modify_device
      { devices := [(0, Device.init 0 "sw" (VarState.switch Switch.init))],
        main_hub := none, dwellings := [], nextId := 1 } 0
      [("brightness", PyVal.int 50)]).1 = Except.error PyErr.typeError := by
  rfl

/-- Claim C4 as amended: `modify_device` never raises for an unknown
device id (it returns false), and for a known device it returns a
boolean — all validation failures being silent no-ops signaled only
through that boolean — whenever the option bundle uses only field
names the device variant recognizes with values of the expected
runtime types; a bundle containing an unrecognized field name (or a
value of a type the body's operations reject) raises an exception that
escapes the Registry boundary. -/
theorem modify_device_no_raise (dm : DeviceManager) (device_id : Nat)
    (kwargs : Kw) :
    (alookup dm.devices device_id = none →
      DeviceManager.modify_device dm device_id kwargs = (Except.ok false, dm)) ∧
    (∀ d, alookup dm.devices device_id = some d →
      wellTypedKw d.var kwargs = true →
      ExceptOk (DeviceManager.modify_device dm device_id kwargs).1 = true) := by
  constructor
  · intro hl
    simp [DeviceManager.modify_device, hl]
  · intro d hl hw
    have hgoal : ExceptOk (Device.modify_state_kw kwargs d).1 = true := by
      cases hv : d.var with
      | switch s =>
        have hw2 : wellTypedKw (VarState.switch s) kwargs = true := by
          rw [hv] at hw
          exact hw
        simpa [Device.modify_state_kw, hv] using switch_kw_no_raise kwargs s hw2
      | dimmer s =>
        have hw2 : wellTypedKw (VarState.dimmer s) kwargs = true := by
          rw [hv] at hw
          exact hw
        simpa [Device.modify_state_kw, hv] using dimmer_kw_no_raise kwargs s hw2
      | lock s =>
        have hw2 : wellTypedKw (VarState.lock s) kwargs = true := by
          rw [hv] at hw
          exact hw
        simpa [Device.modify_state_kw, hv] using lock_kw_no_raise kwargs s hw2
      | thermostat s =>
        have hw2 : wellTypedKw (VarState.thermostat s) kwargs = true := by
          rw [hv] at hw
          exact hw
        simpa [Device.modify_state_kw, hv] using thermostat_kw_no_raise kwargs s hw2
    simpa [DeviceManager.modify_device, hl] using hgoal

/-- Witness for the amended C4: a recognized, well-typed bundle on a
known switch completes without raising. -/
theorem modify_device_no_raise_witness :
    ExceptOk (DeviceManager.modify_device
      { devices := [(0, Device.init 0 "sw" (VarState.switch Switch.init))],
        main_hub := none, dwellings := [], nextId := 1 } 0
      [("power", PyVal.str "on")]).1 = true :=
  (modify_device_no_raise
    { devices := [(0, Device.init 0 "sw" (VarState.switch Switch.init))],
      main_hub := none, dwellings := [], nextId := 1 } 0
    [("power", PyVal.str "on")]).2
    (Device.init 0 "sw" (VarState.switch Switch.init)) (by decide) (by decide)

end Ambient
